import Mathlib

/-!
Verification of the real-time messaging core of the stacktrials backend.

The development shallowly embeds, in Lean, the code of:
  * `app/common/ws_manager.py` (class `ConnectionManager`),
  * the WebSocket routers `app/modules/chat/ws_router.py` and
    `app/modules/notification/ws_router.py`,
  * the chat domain operations of `app/modules/chat/service.py`
    (`update_chat`, `create_message`, `update_message`, `delete_message`,
    `create_delete_reaction`, `fetch_unread_stats`, `list_messages`,
    `get_chat_or_raise`),
  * `NotificationService.list_notifications` of
    `app/modules/notification/service.py`.

Connections are identified by natural numbers, channel keys by strings,
timestamps by natural numbers.  Mutation of the registry / database is made
explicit by state passing; Python exceptions are `Except` errors.
-/

/-- Python exceptions raised by the embedded code paths. -/
inductive PyError where
  /-- `HTTPException(code, detail)` from fastapi. -/
  | http (code : Nat) (detail : String)
  /-- Python `IndexError` (out-of-range subscript on a list). -/
  | indexError
  /-- Python `TypeError` (here: truth value of a SQLAlchemy clause). -/
  | typeError
  /-- Python `AttributeError` (attribute lookup failed on an object). -/
  | attributeError (name : String)
  /-- Python `ImportError` (a `from <module> import <name>` named an
  undefined `<name>`), raised while the importing module is being loaded. -/
  | importError (name : String)
  /-- Python `AssertionError` (a bare `assert` failed). -/
  | assertionError
deriving DecidableEq

/-- Decidable equality of `Except` results, for evaluating the embedded
operations on concrete inputs. -/
instance {ε α : Type} [DecidableEq ε] [DecidableEq α] : DecidableEq (Except ε α) :=
  fun a b =>
    match a, b with
    | .ok x, .ok y =>
        if h : x = y then .isTrue (by rw [h]) else .isFalse (by simp [h])
    | .error e, .error f =>
        if h : e = f then .isTrue (by rw [h]) else .isFalse (by simp [h])
    | .ok _, .error _ => .isFalse (by simp)
    | .error _, .ok _ => .isFalse (by simp)

/-! ## ConnectionManager (`app/common/ws_manager.py`)

`ConnectionManager.active_connections` is a `DefaultDict[str, Set[WebSocket]]`.
We embed it as an association list from channel keys to the list of
subscribed connections (the list plays the role of the Python set: `connect`
inserts without duplicating, `discard` removes).  `defaultdict` semantics:
reading a missing key yields the empty set. -/

/-- The channel-key to subscriber-set map of `ConnectionManager`. -/
abbrev Registry := List (String × List Nat)

namespace ConnectionManager

/-- Reads `self.active_connections.get(doc_id, [])` / `self.active_connections[doc_id]`:
the set registered under a key, empty when the key is absent. -/
def subsOf (r : Registry) (k : String) : List Nat :=
  match r.find? (fun p => p.1 == k) with
  | none => []
  | some p => p.2

/-- Python `set.add`: insert a connection if it is not already present. -/
def addSub (s : List Nat) (ws : Nat) : List Nat :=
  if ws ∈ s then s else s ++ [ws]

/-- Embeds `ConnectionManager.connect` (ws_manager.py lines 13-16): accept the socket
and add it to the set of the key (the `defaultdict` creates the entry). -/
def connect (r : Registry) (k : String) (ws : Nat) : Registry :=
  match r with
  | [] => [(k, [ws])]
  | (k', s) :: rest =>
      if k' == k then (k', addSub s ws) :: rest else (k', s) :: connect rest k ws

/-- Embeds `ConnectionManager.disconnect` (ws_manager.py lines 18-22):
`discard` the socket from the key's set, and when the set becomes empty
delete the key entry.  On an absent key the `defaultdict` first creates an
empty set which the emptiness check then deletes again, so the registry is
unchanged. -/
def disconnect (r : Registry) (k : String) (ws : Nat) : Registry :=
  match r with
  | [] => []
  | (k', s) :: rest =>
      if k' == k then
        if s.filter (fun w => w != ws) = [] then rest
        else (k', s.filter (fun w => w != ws)) :: rest
      else (k', s) :: disconnect rest k ws

/-- The `for ws in conns` loop of `broadcast_local`: attempt delivery to each
connection of the snapshot in turn; a failing send (`fails ws = true`) runs
`await self.disconnect(doc_id, ws)` on the current registry and the loop
continues with the rest of the snapshot. -/
def deliverLoop (k : String) (fails : Nat → Bool) :
    List Nat → List Nat × Registry → List Nat × Registry
  | [], acc => acc
  | ws :: rest, (sent, st) =>
      if fails ws then deliverLoop k fails rest (sent, disconnect st k ws)
      else deliverLoop k fails rest (sent ++ [ws], st)

/-- Embeds `ConnectionManager.broadcast_local` (ws_manager.py lines 24-31): snapshot
the current subscribers of the key (`list(self.active_connections.get(doc_id, []))`),
then deliver to each, disconnecting the ones whose send raises.  Returns the
list of connections the message was delivered to and the resulting registry. -/
def broadcast_local (r : Registry) (k : String) (fails : Nat → Bool) :
    List Nat × Registry :=
  deliverLoop k fails (subsOf r k) ([], r)

/-- The keys of a registry are pairwise distinct (a Python dict invariant). -/
def keysNodup (r : Registry) : Prop := (r.map Prod.fst).Nodup

/-- No key of the registry maps to an empty subscriber set (the pruning
invariant of `disconnect`). -/
def noEmptyChannels (r : Registry) : Prop := ∀ p ∈ r, p.2 ≠ []

instance (r : Registry) : Decidable (keysNodup r) := by
  unfold keysNodup; infer_instance

instance (r : Registry) : Decidable (noEmptyChannels r) := by
  unfold noEmptyChannels; infer_instance

end ConnectionManager

namespace ConnectionManager

/-- A registry operation of the subscribe/unsubscribe vocabulary
(the only operations that mutate `active_connections` besides the
failure-triggered `disconnect` inside `broadcast_local`, which calls
the same `disconnect`). -/
inductive RegOp where
  | sub (k : String) (ws : Nat)
  | unsub (k : String) (ws : Nat)

/-- Apply one registry operation. -/
def applyOp (r : Registry) : RegOp → Registry
  | .sub k ws => connect r k ws
  | .unsub k ws => disconnect r k ws

/-- Apply a sequence of registry operations from left to right. -/
def applyOps (ops : List RegOp) (r : Registry) : Registry :=
  ops.foldl applyOp r

end ConnectionManager

/-! ## WebSocket handlers and name resolution

`app/modules/chat/ws_router.py` and `app/modules/notification/ws_router.py`
drive their registries through `manager.subscribe_local`,
`manager.unsubscribe_local` and `manager.publish`, and import channel-key /
serializer helpers from `app.common.utils`.  We record, as string lists read
off the source, which attributes `ConnectionManager` actually defines, which
manager attributes the handlers access, which names the handlers (and the
services) import from `app.common.utils`, and which names `app/common/utils.py`
actually defines.  Python resolves a `from <module> import <names>`
statement while the importing module is loaded and raises `ImportError` at
the first requested name the module does not define, so a module requesting
a missing name never finishes loading and the handlers it would define are
never registered; `fromImport` embeds that resolution and the per-module
request lists are read off the import statements of the four modules. -/

/-- The methods the class `ConnectionManager` defines
(ws_manager.py lines 8-31). -/
def connectionManagerOps : List String := ["connect", "disconnect", "broadcast_local"]

/-- Manager attributes accessed by `connect_chat_histories` in
chat/ws_router.py (lines 55, 69, 98, 103). -/
def chatHistoryRegistryCalls : List String := ["subscribe_local", "unsubscribe_local"]

/-- Manager attributes accessed by `connect_to_chat` in chat/ws_router.py
(lines 143, 145, 171, 188, 202, 214, 218, 235, 248, 266, 267, 273, 285). -/
def chatRoomRegistryCalls : List String := ["subscribe_local", "publish", "unsubscribe_local"]

/-- Manager attributes accessed by the notification WebSocket handler
(notification/ws_router.py lines 28, 41, 46). -/
def notificationRegistryCalls : List String := ["subscribe_local", "unsubscribe_local"]

/-- Top-level (module-scope) names defined by `app/common/utils.py`
(the whole file, lines 1-166). -/
def utilsDefinedNames : List String :=
  ["generate_random_username", "safe_json_loads", "paginate", "slugify",
   "encode_state", "decode_state", "extract_redirect_uri", "accepted_mime"]

/-- Names the WebSocket routers and the chat/notification services import
from `app.common.utils` (chat/ws_router.py line 8, notification/ws_router.py
line 5, chat/service.py lines 12-17, notification/service.py line 10). -/
def wsUtilsImports : List String :=
  ["chat_history_ws_channel", "notification_ws_channel", "websocket_error_wrapper",
   "CursorPaginationSerializer", "generate_base_64_encoded_uuid", "ws_code_from_http_code"]

/-- Embeds `from <module> import <requested names>` against the defined
names of the imported module: Python binds the requested names left to
right and raises `ImportError` at the first one the module does not
define; only if all resolve does the importing module finish loading. -/
def fromImport (defined : List String) : List String → Except PyError Unit
  | [] => .ok ()
  | n :: rest =>
      if n ∈ defined then fromImport defined rest else .error (.importError n)

/-- Names `app/modules/chat/ws_router.py` (line 8) requests from
`app.common.utils`, in source order. -/
def chatWsRouterUtilsRequest : List String :=
  ["chat_history_ws_channel", "websocket_error_wrapper"]

/-- Names `app/modules/notification/ws_router.py` (line 5) requests from
`app.common.utils`. -/
def notificationWsRouterUtilsRequest : List String := ["notification_ws_channel"]

/-- Names `app/modules/chat/service.py` (lines 12-17) requests from
`app.common.utils`, in source order. -/
def chatServiceUtilsRequest : List String :=
  ["CursorPaginationSerializer", "generate_base_64_encoded_uuid", "paginate",
   "ws_code_from_http_code"]

/-- Names `app/modules/notification/service.py` (line 10) requests from
`app.common.utils`, in source order. -/
def notificationServiceUtilsRequest : List String :=
  ["CursorPaginationSerializer", "notification_ws_channel"]

/-- Sessions a WebSocket endpoint can serve: the handler body exists only
in a module that finished loading, so when the module's import failed the
endpoint accepts no session at all, however many clients try. -/
def endpointSessions (moduleLoad : Except PyError Unit)
    (requestedSessions : Nat) : Nat :=
  match moduleLoad with
  | .error _ => 0
  | .ok _ => requestedSessions

/-! ## C3: subscriptions acquired vs subscriptions cleaned by `connect_to_chat`

`connect_to_chat` registers the socket under the room key (the raw
`chat_id`, line 143) and under the personal-sync key (line 145).  Both its
terminal paths (`except WebSocketDisconnect`, lines 269-276, and
`except Exception`, lines 277-292) unsubscribe only `(chat_id, local_conn)`.
The registry operations `subscribe_local`/`unsubscribe_local` are not
defined in src (see C2), so they are modelled from the spec below. -/

/-- Modelled from the spec: `personal_sync_channel(account_id) = "sync:" +
account_id` (§4.3); src calls the missing helper `chat_history_ws_channel`
for this key (chat/ws_router.py lines 53, 144). -/
def chat_history_ws_channel (accountId : String) : String := "sync:" ++ accountId

/-- Modelled from the spec: `subscribe(channel_key, connection)` registers
the connection under the key (§4.1); `manager.subscribe_local` is called by
the routers but not defined in src. -/
def subscribe_local (r : Registry) (k : String) (ws : Nat) : Registry :=
  ConnectionManager.connect r k ws

/-- Modelled from the spec: `unsubscribe(channel_key, handle)` removes the
registration and prunes an emptied key (§4.1); `manager.unsubscribe_local`
is called by the routers but not defined in src. -/
def unsubscribe_local (r : Registry) (k : String) (ws : Nat) : Registry :=
  ConnectionManager.disconnect r k ws

/-- The two subscriptions `connect_to_chat` acquires on hydration
(chat/ws_router.py lines 143-145): the room key, then the personal-sync key. -/
def connect_to_chat_subscribe (r : Registry) (chatId accountId : String)
    (ws : Nat) : Registry :=
  subscribe_local (subscribe_local r chatId ws) (chat_history_ws_channel accountId) ws

/-- The cleanup both terminal paths of `connect_to_chat` run
(chat/ws_router.py lines 272-274 and 284-286): unsubscribe only
`(chat_id, local_conn)`; `sync_conn` is never unsubscribed. -/
def connect_to_chat_cleanup (r : Registry) (chatId : String) (ws : Nat) : Registry :=
  unsubscribe_local r chatId ws

/-! ## Chat domain model (`app/models/chat_model.py`, `app/common/enum.py`)

Records carry exactly the fields the embedded operations touch.  `MemberRole`
and `MemberStatus` are Python `str`-enums whose comparisons are by string
value, so each constructor carries its `.value` string.  `Chat.last_message_at`
is read and written by `ChatService.create_message` (service.py lines 395-396)
but the field is not declared on the `Chat` model in src; it is modelled from
the spec as a timestamp field ("`chat.last_message_at` is a
monotonically-non-decreasing summary"). -/

/-- Embeds `MemberRole` (enum.py lines 119-123). -/
inductive MemberRole where
  | ADMIN
  | MODERATOR
  | MEMBER
deriving DecidableEq

/-- The `str` value of a `MemberRole`. -/
def MemberRole.value : MemberRole → String
  | .ADMIN => "admin"
  | .MODERATOR => "moderator"
  | .MEMBER => "member"

/-- Embeds `MemberStatus` (enum.py lines 125-129). -/
inductive MemberStatus where
  | ACTIVE
  | LEFT
  | KICKED
  | BANNED
deriving DecidableEq

/-- The `str` value of a `MemberStatus`. -/
def MemberStatus.value : MemberStatus → String
  | .ACTIVE => "active"
  | .LEFT => "left"
  | .KICKED => "kicked"
  | .BANNED => "banned"

/-- A `Chat` row (chat_model.py lines 35-65; `last_message_at` modelled from
the spec, see the section comment). -/
structure ChatRec where
  id : String
  account_id : Option String
  name : String
  last_message_at : Nat
deriving DecidableEq

/-- A `ChatMember` row (chat_model.py lines 68-99). -/
structure ChatMemberRec where
  account_id : String
  chat_id : String
  role : MemberRole
  status : MemberStatus
  is_creator : Bool
  last_read_message_id : Option Nat
deriving DecidableEq

/-- A `Message` row (chat_model.py lines 128-167). -/
structure MessageRec where
  id : Nat
  chat_id : String
  sender_id : String
  content : String
  created_at : Nat
  is_edited : Bool
  is_deleted : Bool
  reply_to_id : Option Nat
deriving DecidableEq

/-- A `MessageReaction` row (chat_model.py lines 206-222). -/
structure MessageReactionRec where
  emoji : String
  account_id : String
  message_id : Nat
deriving DecidableEq

/-- A `Notification` row (the fields `list_notifications` touches). -/
structure NotificationRec where
  id : Nat
  account_id : String
  created_at : Nat
deriving DecidableEq

/-- The relational state the embedded operations read and write. -/
structure Db where
  chats : List ChatRec
  members : List ChatMemberRec
  messages : List MessageRec
  reactions : List MessageReactionRec
  notifications : List NotificationRec
deriving DecidableEq

namespace ChatService

/-- Embeds `ChatService.get_chat_or_raise` (service.py lines 915-929):
`select(Chat).join(ChatMember).where(Chat.id == chat_id,
ChatMember.account_id == account_id)` — the first chat with the given id
having a member row for the account; 403 otherwise. -/
def get_chat_or_raise (chatId accountId : String) (db : Db) :
    Except PyError ChatRec :=
  match db.chats.find? (fun ch => ch.id == chatId
      && db.members.any (fun m => m.chat_id == ch.id && m.account_id == accountId)) with
  | some chat => .ok chat
  | none => .error (.http 403 "you are not a member of this chat")

/-- Embeds `ChatService.update_chat` (service.py lines 263-290).  The permission
test is the source's `member.status != MemberRole.ADMIN and not
member.is_creator` — it compares the member's `status` (a `MemberStatus`
string) with the role value `"admin"`.  The update payload is modelled as the
new chat name. -/
def update_chat (db : Db) (userId chatId : String) (newName : String) :
    Except PyError (Db × ChatRec) := do
  let chat ← get_chat_or_raise chatId userId db
  match db.members.find? (fun m => m.account_id == userId && m.chat_id == chat.id) with
  | none => .error .assertionError
  | some member =>
      if member.status.value != MemberRole.ADMIN.value && !member.is_creator then
        .error (.http 403 "permission denied")
      else
        let chat' : ChatRec := { chat with name := newName }
        .ok ({ db with
                chats := db.chats.map (fun c => if c.id == chat.id then chat' else c) },
              chat')

/-- Embeds `ChatService.create_message` (service.py lines 380-402): membership
check, insert the message, then update the chat's `last_message_at` only when
the new timestamp is strictly newer.  `t` is the server-assigned
`created_at`, `mid` the generated id. -/
def create_message (db : Db) (userId chatId content : String)
    (replyTo : Option Nat) (t mid : Nat) : Except PyError (Db × MessageRec) :=
  match get_chat_or_raise chatId userId db with
  | .error e => .error e
  | .ok chat =>
      let message : MessageRec :=
        { id := mid, chat_id := chatId, sender_id := userId, content := content,
          created_at := t, is_edited := false, is_deleted := false, reply_to_id := replyTo }
      let chat' := if t > chat.last_message_at then { chat with last_message_at := t } else chat
      .ok ({ db with
              messages := db.messages ++ [message],
              chats := db.chats.map (fun c => if c.id == chat.id then chat' else c) },
            message)

/-- Embeds `ChatService.update_message` (service.py lines 404-435): sender-only
lookup, reject deleted messages, set the new content and `is_edited`. -/
def update_message (db : Db) (userId : String) (messageId : Nat)
    (newContent : String) : Except PyError (Db × MessageRec) :=
  match db.messages.find? (fun m => m.id == messageId && m.sender_id == userId) with
  | none => .error (.http 404 "message not found")
  | some message =>
      if message.is_deleted then .error (.http 403 "Invalid operation")
      else
        let m' : MessageRec := { message with content := newContent, is_edited := true }
        .ok ({ db with
                messages := db.messages.map (fun x => if x.id == messageId then m' else x) },
              m')

/-- Embeds `ChatService.delete_message` (service.py lines 437-460): sender-only
lookup, reject already-deleted messages, set the soft-delete flag. -/
def delete_message (db : Db) (userId : String) (messageId : Nat) :
    Except PyError (Db × MessageRec) :=
  match db.messages.find? (fun m => m.id == messageId && m.sender_id == userId) with
  | none => .error (.http 404 "message not found")
  | some message =>
      if message.is_deleted then .error (.http 403 "Invalid operation")
      else
        let m' : MessageRec := { message with is_deleted := true }
        .ok ({ db with
                messages := db.messages.map (fun x => if x.id == messageId then m' else x) },
              m')

/-- Embeds `ChatService.create_delete_reaction` (service.py lines 825-865).  The
existing-reaction lookup (lines 843-850) filters by `emoji` and
`account_id` only — it carries no `message_id` condition.  If a reaction is
found it is deleted, otherwise a new reaction on `messageId` is inserted. -/
def create_delete_reaction (db : Db) (userId : String) (messageId : Nat)
    (emoji : String) : Except PyError (Db × MessageRec) := do
  match db.messages.find? (fun m => m.id == messageId) with
  | none => .error (.http 404 "message not found")
  | some message => do
      let _ ← get_chat_or_raise message.chat_id userId db
      match db.reactions.find? (fun r => r.emoji == emoji && r.account_id == userId) with
      | some reaction =>
          .ok ({ db with reactions := db.reactions.erase reaction }, message)
      | none =>
          .ok ({ db with reactions := db.reactions ++
                  [{ emoji := emoji, account_id := userId, message_id := messageId }] },
                message)

end ChatService

namespace ChatService

/-! ### Unread aggregation (`ChatService.fetch_unread_stats`, service.py 867-913)

The unread subquery joins `Message` with `ChatMember` on `chat_id`, keeps the
viewer's member row, and filters rows with a Python conditional expression
whose condition is `col(ChatMember.last_read_message_id).isnot(None)` — a
SQLAlchemy `BinaryExpression` with operator `is_not`.  The ternary is
evaluated in Python while the query is being built, which calls `bool()` on
that clause; SQLAlchemy defines the truth value of a `BinaryExpression` only
for the `eq`/`ne` operators and raises
`TypeError("Boolean value of this clause is not defined")` for every other
operator, `is_not` included.  We embed that build-time truth test as an
erroring step, and additionally embed the row semantics each branch would
have if the test returned a boolean, so the behaviour is settled under every
reading. -/

/-- The correlated scalar subquery of service.py lines 884-886: the
`created_at` of the member's `last_read_message_id`, SQL NULL (`none`) when
the pointer is NULL or dangling. -/
def lastReadTimestamp (db : Db) (member : ChatMemberRec) : Option Nat :=
  member.last_read_message_id.bind (fun rid =>
    (db.messages.find? (fun m => m.id == rid)).map (fun m => m.created_at))

/-- Row filter of the ternary's first branch:
`Message.created_at > <scalar subquery>`; comparison against SQL NULL is not
true, so a member with no `last_read_message_id` passes no row. -/
def newerThanLastRead (db : Db) (member : ChatMemberRec) (m : MessageRec) : Bool :=
  match lastReadTimestamp db member with
  | none => false
  | some ts => decide (m.created_at > ts)

/-- The grouped rows of the unread subquery for one chat id under a given
row filter: the viewer's member row for the chat (unique by the
`uix_account_chat` constraint) joined with the chat's messages. -/
def unreadRows (db : Db) (chatId userId : String)
    (rowFilter : ChatMemberRec → MessageRec → Bool) : List MessageRec :=
  match db.members.find? (fun mem => mem.chat_id == chatId && mem.account_id == userId) with
  | none => []
  | some mem => db.messages.filter (fun m => m.chat_id == chatId && rowFilter mem m)

/-- Per-chat `(chat_id, unread_count, has_reply)` groups under a row filter;
`GROUP BY` emits no row for a chat with no qualifying message. -/
def unreadGroups (db : Db) (chatIds : List String) (userId : String)
    (rowFilter : ChatMemberRec → MessageRec → Bool) : List (String × Nat × Bool) :=
  chatIds.foldr (fun c acc =>
    let rows := unreadRows db c userId rowFilter
    if rows.isEmpty then acc
    else (c, rows.length, rows.any (fun m => m.reply_to_id.isSome)) :: acc) []

/-- What the aggregation computes if the build-time ternary condition were
truthy (first branch: count messages newer than the last-read timestamp). -/
def fetchUnreadRowsIfTruthy (db : Db) (chatIds : List String) (userId : String) :
    List (String × Nat × Bool) :=
  unreadGroups db chatIds userId (newerThanLastRead db)

/-- What the aggregation computes if the build-time ternary condition were
falsy (second branch `True`: every message of the chat counts). -/
def fetchUnreadRowsIfFalsy (db : Db) (chatIds : List String) (userId : String) :
    List (String × Nat × Bool) :=
  unreadGroups db chatIds userId (fun _ _ => true)

/-- Evaluates `bool()` of the `is_not` clause at service.py line 887 (see the section
comment): raises `TypeError`. -/
def sqlalchemyClauseTruth : Except PyError Bool := .error .typeError

/-- Embeds `ChatService.fetch_unread_stats` (service.py lines 867-913): build the
subquery — evaluating the Python ternary's condition (an erroring step) — and
return the per-chat groups of whichever branch the condition selects. -/
def fetch_unread_stats (db : Db) (chatIds : List String) (userId : String) :
    Except PyError (List (String × Nat × Bool)) := do
  let cond ← sqlalchemyClauseTruth
  if cond then pure (fetchUnreadRowsIfTruthy db chatIds userId)
  else pure (fetchUnreadRowsIfFalsy db chatIds userId)

/-! ### Cursor pagination (`ChatService.list_messages`, service.py 53-98, and
`NotificationService.list_notifications`, notification/service.py 38-77)

The page serializer `CursorPaginationSerializer(items, oldest_id, newest_id,
has_next)` is imported from `app.common.utils` but not defined in src; it is
modelled from the spec ("Response includes the oldest and newest id in the
returned page and a `has_next` flag"). -/

/-- Insert into a most-recent-first list (`ORDER BY created_at DESC`). -/
def insertDescBy {α : Type} (key : α → Nat) (a : α) : List α → List α
  | [] => [a]
  | x :: xs => if key a ≥ key x then a :: x :: xs else x :: insertDescBy key a xs

/-- Sort most-recent-first by a timestamp key. -/
def sortDescBy {α : Type} (key : α → Nat) : List α → List α
  | [] => []
  | x :: xs => insertDescBy key x (sortDescBy key xs)

/-- Embeds `col(Message.content).ilike` of the search pattern: case-insensitive substring. -/
def contentMatches (m : MessageRec) (q : String) : Bool :=
  (m.content.toLower.splitOn q.toLower).length != 1

/-- Modelled from the spec: the page envelope produced by the missing
`CursorPaginationSerializer`. -/
structure PaginatedMessages where
  items : List MessageRec
  oldest_message_id : Nat
  newest_message_id : Nat
  has_next : Bool
deriving DecidableEq

/-- The message rows `list_messages` selects (service.py lines 64-86): the
chat's non-deleted messages, restricted by the resolved anchor (strictly
before/after its timestamp; an unknown anchor id or cursor type silently
applies no restriction), restricted by the search pattern when `q` is a
non-empty string, ordered most-recent-first and truncated to `limit`. -/
def selectedMessages (db : Db) (chatId : String) (q : Option String)
    (lastMessageId : Option Nat) (cursorType : Option String) (limit : Nat) :
    List MessageRec :=
  let base := db.messages.filter (fun m => m.chat_id == chatId && !m.is_deleted)
  let base := match lastMessageId with
    | none => base
    | some aid =>
        match db.messages.find? (fun m => m.id == aid) with
        | none => base
        | some anchor =>
            if cursorType == some "before" then
              base.filter (fun m => decide (m.created_at < anchor.created_at))
            else if cursorType == some "after" then
              base.filter (fun m => decide (m.created_at > anchor.created_at))
            else base
  let base := match q with
    | none => base
    | some s => if s = "" then base else base.filter (fun m => contentMatches m s)
  (sortDescBy (fun m => m.created_at) base).take limit

/-- Embeds `ChatService.list_messages` (service.py lines 53-98): membership check,
row selection, then `messages[len(messages) - 1]` — an `IndexError` on an
empty page — followed by the `has_next` existence probe
`select(Message).where(Message.created_at < last_message.created_at)`
(line 91: over every message of the table, any chat, deleted included). -/
def list_messages (db : Db) (chatId userId : String) (q : Option String)
    (lastMessageId : Option Nat) (cursorType : Option String) (limit : Nat) :
    Except PyError PaginatedMessages := do
  let _ ← get_chat_or_raise chatId userId db
  match selectedMessages db chatId q lastMessageId cursorType limit with
  | [] => .error .indexError
  | newest :: restMsgs =>
      let oldest := (newest :: restMsgs).getLast (List.cons_ne_nil _ _)
      .ok { items := newest :: restMsgs,
            oldest_message_id := oldest.id,
            newest_message_id := newest.id,
            has_next := db.messages.any (fun m => decide (m.created_at < oldest.created_at)) }

end ChatService

namespace NotificationService

/-- Modelled from the spec: the page envelope produced by the missing
`CursorPaginationSerializer`. -/
structure PaginatedNotifications where
  items : List NotificationRec
  oldest_id : Nat
  newest_id : Nat
  has_next : Bool
deriving DecidableEq

/-- The rows `list_notifications` selects (notification/service.py lines
46-65): the account's notifications, restricted by the resolved anchor,
ordered most-recent-first and truncated to `limit`. -/
def selectedNotifications (db : Db) (userId : String) (lastMessageId : Option Nat)
    (cursorType : Option String) (limit : Nat) : List NotificationRec :=
  let base := db.notifications.filter (fun n => n.account_id == userId)
  let base := match lastMessageId with
    | none => base
    | some aid =>
        match db.notifications.find? (fun n => n.id == aid && n.account_id == userId) with
        | none => base
        | some anchor =>
            if cursorType == some "before" then
              base.filter (fun n => decide (n.created_at < anchor.created_at))
            else if cursorType == some "after" then
              base.filter (fun n => decide (n.created_at > anchor.created_at))
            else base
  (ChatService.sortDescBy (fun n => n.created_at) base).take limit

/-- Embeds `NotificationService.list_notifications` (notification/service.py lines
38-77): row selection, then the `has_next` probe indexes `messages[-1]` — an
`IndexError` on an empty page; the probe itself ranges over every
notification of the table, any account. -/
def list_notifications (db : Db) (userId : String) (lastMessageId : Option Nat)
    (cursorType : Option String) (limit : Nat) :
    Except PyError PaginatedNotifications :=
  match selectedNotifications db userId lastMessageId cursorType limit with
  | [] => .error .indexError
  | newest :: restNs =>
      let oldest := (newest :: restNs).getLast (List.cons_ne_nil _ _)
      .ok { items := newest :: restNs,
            oldest_id := oldest.id,
            newest_id := newest.id,
            has_next := db.notifications.any (fun n => decide (n.created_at < oldest.created_at)) }

end NotificationService

namespace ChatService

/-- The `last_message_at` summary of the chat with the given id. -/
def lastMessageAt (db : Db) (chatId : String) : Option Nat :=
  (db.chats.find? (fun c => c.id == chatId)).map (fun c => c.last_message_at)

end ChatService

/-! ## Concrete databases for the claims about the chat domain -/

/-- A chat `c1` created by `u0`, with `u0` the creator-admin and `u1` an
admin (`role = ADMIN`, `status = ACTIVE`) who is not the creator. -/
def c4Db : Db :=
  { chats := [{ id := "c1", account_id := some "u0", name := "general",
                last_message_at := 0 }],
    members :=
      [{ account_id := "u0", chat_id := "c1", role := .ADMIN, status := .ACTIVE,
         is_creator := true, last_read_message_id := none },
       { account_id := "u1", chat_id := "c1", role := .ADMIN, status := .ACTIVE,
         is_creator := false, last_read_message_id := none }],
    messages := [], reactions := [], notifications := [] }

/-- A chat `c1` whose viewer `v` has `last_read_message_id = NULL` and which
holds five messages (timestamps 1..5, message 4 a reply to message 3). -/
def c5Db : Db :=
  { chats := [{ id := "c1", account_id := some "v", name := "room",
                last_message_at := 5 }],
    members :=
      [{ account_id := "v", chat_id := "c1", role := .MEMBER, status := .ACTIVE,
         is_creator := false, last_read_message_id := none }],
    messages :=
      [{ id := 1, chat_id := "c1", sender_id := "v", content := "a",
         created_at := 1, is_edited := false, is_deleted := false, reply_to_id := none },
       { id := 2, chat_id := "c1", sender_id := "v", content := "b",
         created_at := 2, is_edited := false, is_deleted := false, reply_to_id := none },
       { id := 3, chat_id := "c1", sender_id := "v", content := "c",
         created_at := 3, is_edited := false, is_deleted := false, reply_to_id := none },
       { id := 4, chat_id := "c1", sender_id := "v", content := "d",
         created_at := 4, is_edited := false, is_deleted := false, reply_to_id := some 3 },
       { id := 5, chat_id := "c1", sender_id := "v", content := "e",
         created_at := 5, is_edited := false, is_deleted := false, reply_to_id := none }],
    reactions := [], notifications := [] }

/-- A single message record of the ten-message chat `c1`: id `i`,
timestamp `i`. -/
def mkMsg (i : Nat) : MessageRec :=
  { id := i, chat_id := "c1", sender_id := "v", content := "m",
    created_at := i, is_edited := false, is_deleted := false, reply_to_id := none }

/-- A chat `c1` with member `v` and messages M1..M10 (id = timestamp = i,
M10 newest), none deleted. -/
def db10 : Db :=
  { chats := [{ id := "c1", account_id := some "v", name := "room",
                last_message_at := 10 }],
    members :=
      [{ account_id := "v", chat_id := "c1", role := .MEMBER, status := .ACTIVE,
         is_creator := false, last_read_message_id := none }],
    messages := (List.range 10).map (fun i => mkMsg (i + 1)),
    reactions := [], notifications := [] }

/-- The page of a `list_messages` result as (item ids, has_next). -/
def pageIds (r : Except PyError ChatService.PaginatedMessages) :
    Option (List Nat × Bool) :=
  r.toOption.map (fun p => (p.items.map (fun m => m.id), p.has_next))

/-- Chat `c1` with messages 1 and 2 where account `u` already holds a
`thumbsup` reaction on message 2. -/
def c7Db : Db :=
  { chats := [{ id := "c1", account_id := some "u", name := "room",
                last_message_at := 2 }],
    members :=
      [{ account_id := "u", chat_id := "c1", role := .MEMBER, status := .ACTIVE,
         is_creator := false, last_read_message_id := none }],
    messages :=
      [{ id := 1, chat_id := "c1", sender_id := "u", content := "a",
         created_at := 1, is_edited := false, is_deleted := false, reply_to_id := none },
       { id := 2, chat_id := "c1", sender_id := "u", content := "b",
         created_at := 2, is_edited := false, is_deleted := false, reply_to_id := none }],
    reactions := [{ emoji := "thumbsup", account_id := "u", message_id := 2 }],
    notifications := [] }

/-- First toggle of `thumbsup` by `u` on message 1. -/
def c7First : Except PyError (Db × MessageRec) :=
  ChatService.create_delete_reaction c7Db "u" 1 "thumbsup"

/-- Second toggle of `thumbsup` by `u` on message 1, on the state the first
toggle produced. -/
def c7Second : Except PyError (Db × MessageRec) :=
  c7First.bind (fun p => ChatService.create_delete_reaction p.1 "u" 1 "thumbsup")

/-- A chat `c1` whose only message is soft-deleted, viewed by its member
`v`; `v` has no notifications. -/
def c10Db : Db :=
  { chats := [{ id := "c1", account_id := some "v", name := "room",
                last_message_at := 1 }],
    members :=
      [{ account_id := "v", chat_id := "c1", role := .MEMBER, status := .ACTIVE,
         is_creator := false, last_read_message_id := none }],
    messages :=
      [{ id := 1, chat_id := "c1", sender_id := "v", content := "gone",
         created_at := 1, is_edited := false, is_deleted := true, reply_to_id := none }],
    reactions := [], notifications := [] }

/-- A chat `c1` with `last_message_at = 5` and one message at timestamp 5. -/
def c8Db : Db :=
  { chats := [{ id := "c1", account_id := some "u", name := "room",
                last_message_at := 5 }],
    members :=
      [{ account_id := "u", chat_id := "c1", role := .MEMBER, status := .ACTIVE,
         is_creator := false, last_read_message_id := none }],
    messages :=
      [{ id := 1, chat_id := "c1", sender_id := "u", content := "a",
         created_at := 5, is_edited := false, is_deleted := false, reply_to_id := none }],
    reactions := [], notifications := [] }

/-- The message created in the C8 witness run (timestamp 9). -/
def c8NewMsg : MessageRec :=
  { id := 2, chat_id := "c1", sender_id := "u", content := "b",
    created_at := 9, is_edited := false, is_deleted := false, reply_to_id := none }

/-- The database after the C8 witness `create_message` run. -/
def c8CreateDb : Db :=
  { c8Db with
    messages := c8Db.messages ++ [c8NewMsg],
    chats := [{ id := "c1", account_id := some "u", name := "room",
                last_message_at := 9 }] }

/-- The message after the C8 witness `update_message` run. -/
def c8UpdMsg : MessageRec :=
  { id := 1, chat_id := "c1", sender_id := "u", content := "edited",
    created_at := 5, is_edited := true, is_deleted := false, reply_to_id := none }

/-- The database after the C8 witness `update_message` run. -/
def c8UpdateDb : Db := { c8Db with messages := [c8UpdMsg] }

/-- The message after the C8 witness `delete_message` run. -/
def c8DelMsg : MessageRec :=
  { id := 1, chat_id := "c1", sender_id := "u", content := "a",
    created_at := 5, is_edited := false, is_deleted := true, reply_to_id := none }

/-- The database after the C8 witness `delete_message` run. -/
def c8DeleteDb : Db := { c8Db with messages := [c8DelMsg] }

namespace ConnectionManager

theorem subsOf_cons (k' k : String) (s : List Nat) (rest : Registry) :
    subsOf ((k', s) :: rest) k = if k' == k then s else subsOf rest k := by
  by_cases h : k' == k <;> simp [subsOf, List.find?, h]

theorem subsOf_eq_nil_of_not_mem_keys {r : Registry} {k : String}
    (h : k ∉ r.map Prod.fst) : subsOf r k = [] := by
  induction r with
  | nil => rfl
  | cons p rest ih =>
      obtain ⟨k', s⟩ := p
      simp only [List.map_cons, List.mem_cons] at h
      push_neg at h
      rw [subsOf_cons, if_neg (by simpa using fun hkk => h.1 hkk.symm)]
      exact ih h.2

theorem subsOf_disconnect_self {r : Registry} (k : String) (ws : Nat)
    (h : keysNodup r) :
    subsOf (disconnect r k ws) k = (subsOf r k).filter (fun w => w != ws) := by
  induction r with
  | nil => rfl
  | cons p rest ih =>
      obtain ⟨k', s⟩ := p
      unfold keysNodup at h
      simp only [List.map_cons, List.nodup_cons] at h
      by_cases hk : k' == k
      · have hk' : k' = k := by simpa using hk
        have h1 : k ∉ List.map Prod.fst rest := hk' ▸ h.1
        have hrest : subsOf rest k = [] := subsOf_eq_nil_of_not_mem_keys h1
        simp only [disconnect, if_pos hk]
        by_cases hempty : s.filter (fun w => w != ws) = []
        · rw [if_pos hempty, hrest, subsOf_cons, if_pos hk, hempty]
        · rw [if_neg hempty, subsOf_cons, if_pos hk, subsOf_cons, if_pos hk]
      · simp only [disconnect, if_neg hk]
        rw [subsOf_cons, if_neg hk, subsOf_cons, if_neg hk]
        exact ih h.2

theorem subsOf_disconnect_other {r : Registry} {k k' : String} (ws : Nat)
    (hkk : k' ≠ k) : subsOf (disconnect r k ws) k' = subsOf r k' := by
  induction r with
  | nil => rfl
  | cons p rest ih =>
      obtain ⟨k'', s⟩ := p
      by_cases hk : k'' == k
      · have hk2 : ¬ (k'' == k') = true := by
          simp only [beq_iff_eq] at hk ⊢
          exact fun h2 => hkk (h2 ▸ hk ▸ rfl)
        simp only [disconnect, if_pos hk]
        by_cases hempty : s.filter (fun w => w != ws) = []
        · rw [if_pos hempty, subsOf_cons, if_neg hk2]
        · rw [if_neg hempty, subsOf_cons, if_neg hk2, subsOf_cons, if_neg hk2]
      · simp only [disconnect, if_neg hk]
        rw [subsOf_cons, subsOf_cons]
        by_cases hk2 : k'' == k'
        · rw [if_pos hk2, if_pos hk2]
        · rw [if_neg hk2, if_neg hk2]
          exact ih

theorem disconnect_of_not_mem {r : Registry} {k : String} {ws : Nat}
    (h2 : noEmptyChannels r) (h : ws ∉ subsOf r k) :
    disconnect r k ws = r := by
  induction r with
  | nil => rfl
  | cons p rest ih =>
      obtain ⟨k', s⟩ := p
      by_cases hk : k' == k
      · rw [subsOf_cons, if_pos hk] at h
        have hfilter : s.filter (fun w => w != ws) = s := by
          apply List.filter_eq_self.2
          intro a ha
          have hne : a ≠ ws := fun haw => h (haw ▸ ha)
          simpa [bne_iff_ne] using hne
        have hs : s ≠ [] := h2 (k', s) (List.mem_cons_self _ _)
        simp only [disconnect, if_pos hk, hfilter, if_neg hs]
      · rw [subsOf_cons, if_neg hk] at h
        simp only [disconnect, if_neg hk]
        rw [ih (fun p hp => h2 p (List.mem_cons_of_mem _ hp)) h]

theorem disconnect_keys_sublist (r : Registry) (k : String) (ws : Nat) :
    ((disconnect r k ws).map Prod.fst).Sublist (r.map Prod.fst) := by
  induction r with
  | nil => simp [disconnect]
  | cons p rest ih =>
      obtain ⟨k', s⟩ := p
      by_cases hk : k' == k
      · simp only [disconnect, if_pos hk]
        by_cases he : s.filter (fun w => w != ws) = []
        · rw [if_pos he]
          simp only [List.map_cons]
          exact (List.Sublist.refl _).cons _
        · rw [if_neg he]
          simp only [List.map_cons]
          exact (List.Sublist.refl _).cons₂ _
      · simp only [disconnect, if_neg hk, List.map_cons]
        exact ih.cons₂ _

theorem keysNodup_disconnect {r : Registry} (k : String) (ws : Nat)
    (h : keysNodup r) : keysNodup (disconnect r k ws) :=
  (disconnect_keys_sublist r k ws).nodup h

theorem noEmpty_disconnect {r : Registry} (k : String) (ws : Nat)
    (h : noEmptyChannels r) : noEmptyChannels (disconnect r k ws) := by
  induction r with
  | nil => exact h
  | cons p rest ih =>
      obtain ⟨k', s⟩ := p
      have hrest : noEmptyChannels rest := fun q hq => h q (List.mem_cons_of_mem _ hq)
      by_cases hk : k' == k
      · simp only [disconnect, if_pos hk]
        by_cases hempty : s.filter (fun w => w != ws) = []
        · rw [if_pos hempty]; exact hrest
        · rw [if_neg hempty]
          intro q hq
          rcases List.mem_cons.1 hq with hq1 | hq2
          · subst hq1; exact hempty
          · exact hrest q hq2
      · simp only [disconnect, if_neg hk]
        intro q hq
        rcases List.mem_cons.1 hq with hq1 | hq2
        · subst hq1; exact h _ (List.mem_cons_self _ _)
        · exact ih hrest q hq2

theorem deliverLoop_fst (k : String) (fails : Nat → Bool) :
    ∀ (l sent : List Nat) (st : Registry),
      (deliverLoop k fails l (sent, st)).1 = sent ++ l.filter (fun w => !fails w) := by
  intro l
  induction l with
  | nil => intro sent st; simp [deliverLoop]
  | cons x rest ih =>
      intro sent st
      by_cases hx : fails x
      · simp [deliverLoop, hx, ih]
      · simp only [Bool.not_eq_true] at hx
        simp [deliverLoop, hx, ih]

theorem deliverLoop_snd_nofail (k : String) (fails : Nat → Bool) :
    ∀ (l sent : List Nat) (st : Registry), (∀ w ∈ l, fails w = false) →
      (deliverLoop k fails l (sent, st)).2 = st := by
  intro l
  induction l with
  | nil => intro sent st _; rfl
  | cons x rest ih =>
      intro sent st h
      have hx : fails x = false := h x (List.mem_cons_self _ _)
      simp only [deliverLoop, hx, Bool.false_eq_true, if_false]
      exact ih _ _ (fun w hw => h w (List.mem_cons_of_mem _ hw))

theorem deliverLoop_snd_single (k : String) (c : Nat) :
    ∀ (l sent : List Nat) (st : Registry), l.Nodup → c ∈ l →
      (deliverLoop k (fun w => w == c) l (sent, st)).2 = disconnect st k c := by
  intro l
  induction l with
  | nil => intro sent st _ hc; cases hc
  | cons x rest ih =>
      intro sent st hnd hc
      rcases List.nodup_cons.1 hnd with ⟨hx, hrest⟩
      by_cases hxc : x = c
      · subst hxc
        simp only [deliverLoop, beq_self_eq_true, if_true]
        exact deliverLoop_snd_nofail k _ rest sent (disconnect st k x)
          (fun w hw => by
            have hne : w ≠ x := fun hwx => hx (hwx ▸ hw)
            simpa using hne)
      · have hmem : c ∈ rest := by
          rcases List.mem_cons.1 hc with h1 | h1
          · exact absurd h1.symm hxc
          · exact h1
        have hbeq : (x == c) = false := by simpa using hxc
        simp only [deliverLoop, hbeq, Bool.false_eq_true, if_false]
        exact ih _ _ hrest hmem

theorem filter_ne_length {c : Nat} :
    ∀ l : List Nat, l.Nodup → c ∈ l →
      (l.filter (fun w => w != c)).length + 1 = l.length := by
  intro l
  induction l with
  | nil => intro _ hc; cases hc
  | cons x rest ih =>
      intro hnd hc
      rcases List.nodup_cons.1 hnd with ⟨hx, hrest⟩
      by_cases hxc : x = c
      · subst hxc
        have hself : rest.filter (fun w => w != x) = rest := by
          apply List.filter_eq_self.2
          intro a ha
          have hne : a ≠ x := fun hax => hx (hax ▸ ha)
          simpa using hne
        simp [hself]
      · have hbne : (x != c) = true := by simpa using hxc
        have hmem : c ∈ rest := by
          rcases List.mem_cons.1 hc with h1 | h1
          · exact absurd h1.symm hxc
          · exact h1
        have hih := ih hrest hmem
        simp only [List.filter_cons, hbne, if_true, List.length_cons]
        omega

end ConnectionManager

namespace ConnectionManager

theorem noEmpty_connect {r : Registry} (k : String) (ws : Nat)
    (h : noEmptyChannels r) : noEmptyChannels (connect r k ws) := by
  induction r with
  | nil =>
      intro q hq
      rcases List.mem_cons.1 hq with hq1 | hq2
      · subst hq1; simp
      · cases hq2
  | cons p rest ih =>
      obtain ⟨k', s⟩ := p
      have hrest : noEmptyChannels rest := fun q hq => h q (List.mem_cons_of_mem _ hq)
      by_cases hk : k' == k
      · simp only [connect, if_pos hk]
        intro q hq
        rcases List.mem_cons.1 hq with hq1 | hq2
        · subst hq1
          simp only [ne_eq, addSub]
          split
          · exact h _ (List.mem_cons_self _ _)
          · simp
        · exact hrest q hq2
      · simp only [connect, if_neg hk]
        intro q hq
        rcases List.mem_cons.1 hq with hq1 | hq2
        · subst hq1; exact h _ (List.mem_cons_self _ _)
        · exact ih hrest q hq2

theorem noEmpty_applyOps (ops : List RegOp) :
    ∀ r : Registry, noEmptyChannels r → noEmptyChannels (applyOps ops r) := by
  induction ops with
  | nil => intro r h; exact h
  | cons op rest ih =>
      intro r h
      cases op with
      | sub k ws => exact ih _ (noEmpty_connect k ws h)
      | unsub k ws => exact ih _ (noEmpty_disconnect k ws h)

end ConnectionManager

open ConnectionManager in
/-- C1.  Fan-out isolation of `ConnectionManager.broadcast_local`
(ws_manager.py lines 24-31): publishing on channel `k` while exactly the
subscriber `c` fails delivers the event to every other subscriber of the
point-in-time snapshot, removes `c` through the very same `disconnect` used
for an explicit disconnect, and a subsequent publish on `k` (with no
failures) reaches exactly the remaining subscribers; the delivered count is
N-1. -/
theorem broadcast_local_fanout_isolation (r : Registry) (k : String) (c : Nat)
    (h1 : keysNodup r) (hnd : (subsOf r k).Nodup) (hc : c ∈ subsOf r k) :
    (broadcast_local r k (fun w => w == c)).1
        = (subsOf r k).filter (fun w => w != c)
    ∧ (broadcast_local r k (fun w => w == c)).2 = disconnect r k c
    ∧ subsOf (broadcast_local r k (fun w => w == c)).2 k
        = (subsOf r k).filter (fun w => w != c)
    ∧ (broadcast_local ((broadcast_local r k (fun w => w == c)).2) k
        (fun _ => false)).1 = (subsOf r k).filter (fun w => w != c)
    ∧ (broadcast_local r k (fun w => w == c)).1.length + 1
        = (subsOf r k).length := by
  have hfst : (broadcast_local r k (fun w => w == c)).1
      = (subsOf r k).filter (fun w => w != c) := by
    have := deliverLoop_fst k (fun w => w == c) (subsOf r k) [] r
    simpa [broadcast_local] using this
  have hsnd : (broadcast_local r k (fun w => w == c)).2 = disconnect r k c :=
    deliverLoop_snd_single k c (subsOf r k) [] r hnd hc
  have hsubs : subsOf (broadcast_local r k (fun w => w == c)).2 k
      = (subsOf r k).filter (fun w => w != c) := by
    rw [hsnd]; exact subsOf_disconnect_self k c h1
  refine ⟨hfst, hsnd, hsubs, ?_, ?_⟩
  · have h4 : (broadcast_local ((broadcast_local r k (fun w => w == c)).2) k
        (fun _ => false)).1 = subsOf ((broadcast_local r k (fun w => w == c)).2) k := by
      have := deliverLoop_fst k (fun _ => false)
        (subsOf ((broadcast_local r k (fun w => w == c)).2) k) []
        ((broadcast_local r k (fun w => w == c)).2)
      simpa [broadcast_local] using this
    rw [h4, hsubs]
  · rw [hfst]
    exact filter_ne_length (subsOf r k) hnd hc

open ConnectionManager in
/-- Witness for C1 at a concrete registry: channel `room` holds subscribers
1, 2, 3 and delivery to 2 fails. -/
theorem broadcast_local_fanout_isolation_witness :
    (broadcast_local [("room", [1, 2, 3])] "room" (fun w => w == 2)).1
        = (subsOf [("room", [1, 2, 3])] "room").filter (fun w => w != 2)
    ∧ (broadcast_local [("room", [1, 2, 3])] "room" (fun w => w == 2)).2
        = disconnect [("room", [1, 2, 3])] "room" 2
    ∧ subsOf (broadcast_local [("room", [1, 2, 3])] "room" (fun w => w == 2)).2 "room"
        = (subsOf [("room", [1, 2, 3])] "room").filter (fun w => w != 2)
    ∧ (broadcast_local
        ((broadcast_local [("room", [1, 2, 3])] "room" (fun w => w == 2)).2) "room"
        (fun _ => false)).1
        = (subsOf [("room", [1, 2, 3])] "room").filter (fun w => w != 2)
    ∧ (broadcast_local [("room", [1, 2, 3])] "room" (fun w => w == 2)).1.length + 1
        = (subsOf [("room", [1, 2, 3])] "room").length :=
  broadcast_local_fanout_isolation [("room", [1, 2, 3])] "room" 2
    (by decide) (by decide) (by decide)

open ConnectionManager in
/-- C9.  `ConnectionManager.disconnect` (ws_manager.py lines 18-22) is an
idempotent no-op on an absent registration, never touches other subscribers,
and prunes emptied channel keys, so that after any sequence of
subscribe/unsubscribe operations no channel key maps to an empty set. -/
theorem disconnect_idempotent_and_prunes (r : Registry) (k : String) (ws : Nat)
    (h1 : keysNodup r) (h2 : noEmptyChannels r) :
    (ws ∉ subsOf r k → disconnect r k ws = r)
    ∧ disconnect (disconnect r k ws) k ws = disconnect r k ws
    ∧ (∀ (k' : String) (w : Nat), w ≠ ws →
        (w ∈ subsOf (disconnect r k ws) k' ↔ w ∈ subsOf r k'))
    ∧ (∀ ops : List RegOp, ∀ p ∈ applyOps ops [], p.2 ≠ []) := by
  refine ⟨fun h => disconnect_of_not_mem h2 h, ?_, ?_, ?_⟩
  · apply disconnect_of_not_mem (noEmpty_disconnect k ws h2)
    rw [subsOf_disconnect_self k ws h1]
    intro hmem
    have := (List.mem_filter.1 hmem).2
    simp at this
  · intro k' w hw
    by_cases hkk : k' = k
    · subst hkk
      rw [subsOf_disconnect_self k' ws h1]
      constructor
      · intro hmem; exact (List.mem_filter.1 hmem).1
      · intro hmem
        refine List.mem_filter.2 ⟨hmem, ?_⟩
        simpa using hw
    · rw [subsOf_disconnect_other ws hkk]
  · intro ops
    exact noEmpty_applyOps ops [] (fun p hp => absurd hp (List.not_mem_nil p))

open ConnectionManager in
/-- Witness for C9 at a concrete registry with two channels. -/
theorem disconnect_idempotent_and_prunes_witness :
    ((5 : Nat) ∉ subsOf [("room", [1, 2]), ("sync", [1])] "room" →
        disconnect [("room", [1, 2]), ("sync", [1])] "room" 5
          = [("room", [1, 2]), ("sync", [1])])
    ∧ disconnect (disconnect [("room", [1, 2]), ("sync", [1])] "room" 5) "room" 5
        = disconnect [("room", [1, 2]), ("sync", [1])] "room" 5
    ∧ (∀ (k' : String) (w : Nat), w ≠ 5 →
        (w ∈ subsOf (disconnect [("room", [1, 2]), ("sync", [1])] "room" 5) k'
          ↔ w ∈ subsOf [("room", [1, 2]), ("sync", [1])] k'))
    ∧ (∀ ops : List RegOp, ∀ p ∈ applyOps ops [], p.2 ≠ []) :=
  disconnect_idempotent_and_prunes [("room", [1, 2]), ("sync", [1])] "room" 5
    (by decide) (by decide)

/-- C2 counterexample: it is not the case that every registry operation the
chat-history handler performs resolves to an operation `ConnectionManager`
defines — `subscribe_local` is called (chat/ws_router.py line 55) but
`ConnectionManager` defines only `connect`, `disconnect`, `broadcast_local`. -/
theorem ws_registry_call_resolves_false :
    ¬ (∀ m ∈ chatHistoryRegistryCalls, m ∈ connectionManagerOps) := by
  decide

/-- C2 (amended).  No registry operation the chat-history, chat-room or
notification WebSocket handlers perform resolves to an operation
`ConnectionManager` defines, and `app.common.utils` defines none of the
helper names the ws routers and the chat/notification services import from
it; consequently — with the src tree as the complete program, which is the
claim's own premise about these names — the `from app.common.utils import`
statements of all four modules raise `ImportError` while the modules are
being loaded, so the handlers are never registered and no such session is
ever accepted: no hydration message, no subscription step, and no inbound
client event ever happens. -/
theorem ws_modules_never_load :
    (∀ m ∈ chatHistoryRegistryCalls ++ chatRoomRegistryCalls
        ++ notificationRegistryCalls, m ∉ connectionManagerOps)
    ∧ (∀ n ∈ wsUtilsImports, n ∉ utilsDefinedNames)
    ∧ fromImport utilsDefinedNames chatWsRouterUtilsRequest
        = .error (.importError "chat_history_ws_channel")
    ∧ fromImport utilsDefinedNames notificationWsRouterUtilsRequest
        = .error (.importError "notification_ws_channel")
    ∧ fromImport utilsDefinedNames chatServiceUtilsRequest
        = .error (.importError "CursorPaginationSerializer")
    ∧ fromImport utilsDefinedNames notificationServiceUtilsRequest
        = .error (.importError "CursorPaginationSerializer")
    ∧ (∀ n : Nat,
        endpointSessions (fromImport utilsDefinedNames chatWsRouterUtilsRequest) n = 0
        ∧ endpointSessions (fromImport utilsDefinedNames notificationWsRouterUtilsRequest) n
            = 0) := by
  refine ⟨by decide, by decide, by decide, by decide, by decide, by decide, ?_⟩
  intro n
  exact ⟨rfl, rfl⟩

/-- C3 (failing run): a socket connects to the room endpoint for chat `c1`
as account `u1`, acquiring both the room and the personal-sync
registrations, then terminates; after the handler's cleanup the
personal-sync registration is still in the registry — the subscription
dangles after its socket is gone, contradicting the claimed invariant. -/
theorem connect_to_chat_leaves_sync_subscription :
    connect_to_chat_cleanup
        (connect_to_chat_subscribe [] "c1" "u1" 0) "c1" 0
      = [(chat_history_ws_channel "u1", [0])]
    ∧ ConnectionManager.subsOf
        (connect_to_chat_cleanup
          (connect_to_chat_subscribe [] "c1" "u1" 0) "c1" 0)
        (chat_history_ws_channel "u1") ≠ [] := by
  decide

/-- C4.  `ChatService.update_chat` rejects a non-creator admin: no
`MemberStatus` string equals the role string `"admin"`, so the source's test
`member.status != MemberRole.ADMIN and not member.is_creator` reduces to
`not member.is_creator`, and the member `u1` with `role = ADMIN`,
`status = ACTIVE`, `is_creator = False` receives `403 permission denied`
instead of succeeding. -/
theorem update_chat_rejects_non_creator_admin :
    (∀ s : MemberStatus, s.value ≠ MemberRole.ADMIN.value)
    ∧ ChatService.update_chat c4Db "u1" "c1" "renamed"
        = .error (.http 403 "permission denied") := by
  constructor
  · intro s; cases s <;> decide
  · decide

/-- C5 (failing run).  With five messages and a viewer who never set
`last_read_message_id`, `fetch_unread_stats` raises `TypeError` while
building the query; and even under the counterfactual truthy reading of the
build-time ternary the chat produces no group row at all (the NULL-timestamp
comparison passes no message), never the claimed `unread_count = 5`. -/
theorem fetch_unread_stats_never_counts_all :
    ChatService.fetch_unread_stats c5Db ["c1"] "v" = .error .typeError
    ∧ ChatService.fetchUnreadRowsIfTruthy c5Db ["c1"] "v" = []
    ∧ (c5Db.messages.filter (fun m => m.chat_id == "c1")).length = 5 := by
  decide

/-- C6.  Cursor-pagination round trip on M1..M10 with page size 3: no anchor
gives {M10,M9,M8} with `has_next`; anchor M8 `before` gives {M7,M6,M5}; the
chain ends at {M1} with `has_next = false`; the concatenated pages are
M10..M1 with no duplicates or gaps. -/
theorem list_messages_cursor_roundtrip :
    pageIds (ChatService.list_messages db10 "c1" "v" none none none 3)
        = some ([10, 9, 8], true)
    ∧ pageIds (ChatService.list_messages db10 "c1" "v" none (some 8) (some "before") 3)
        = some ([7, 6, 5], true)
    ∧ pageIds (ChatService.list_messages db10 "c1" "v" none (some 5) (some "before") 3)
        = some ([4, 3, 2], true)
    ∧ pageIds (ChatService.list_messages db10 "c1" "v" none (some 2) (some "before") 3)
        = some ([1], false)
    ∧ [10, 9, 8] ++ [7, 6, 5] ++ [4, 3, 2] ++ [1]
        = (db10.messages.map (fun m => m.id)).reverse
    ∧ ([10, 9, 8] ++ [7, 6, 5] ++ [4, 3, 2] ++ ([1] : List Nat)).Nodup := by
  decide

/-- C7 (failing run).  Because the reaction lookup carries no `message_id`
condition, toggling `thumbsup` on message 1 twice while the account already
has a `thumbsup` reaction on message 2 first deletes the message-2 reaction
(instead of creating one on message 1) and then creates one on message 1
(instead of deleting it): the double toggle does not restore the prior
state. -/
theorem create_delete_reaction_cross_message :
    c7First.toOption.map (fun p => p.1.reactions) = some []
    ∧ c7Second.toOption.map (fun p => p.1.reactions)
        = some [{ emoji := "thumbsup", account_id := "u", message_id := 1 }]
    ∧ c7Second.toOption.map (fun p => p.1.reactions) ≠ some c7Db.reactions := by
  decide

/-- C10.  Whenever the selected result page is empty — a chat with no
non-deleted messages, a search matching nothing, a before-anchor at the
oldest message, an account with no notifications — `list_messages` (after a
successful membership check) and `list_notifications` return `IndexError`
from the newest/oldest extraction instead of an empty page. -/
theorem empty_page_raises_index_error :
    (∀ (db : Db) (chatId userId : String) (q : Option String)
        (anchor : Option Nat) (ct : Option String) (lim : Nat) (ch : ChatRec),
        ChatService.get_chat_or_raise chatId userId db = .ok ch →
        ChatService.selectedMessages db chatId q anchor ct lim = [] →
        ChatService.list_messages db chatId userId q anchor ct lim
          = .error .indexError)
    ∧ (∀ (db : Db) (userId : String) (anchor : Option Nat) (ct : Option String)
        (lim : Nat),
        NotificationService.selectedNotifications db userId anchor ct lim = [] →
        NotificationService.list_notifications db userId anchor ct lim
          = .error .indexError) := by
  constructor
  · intro db chatId userId q anchor ct lim ch hg hsel
    simp only [ChatService.list_messages, hg, hsel]
    rfl
  · intro db userId anchor ct lim hsel
    simp [NotificationService.list_notifications, hsel]

/-- Witness for C10: listing the tombstone-only chat `c1` and the empty
notification feed of `v` both produce `IndexError`. -/
theorem empty_page_raises_index_error_witness :
    ChatService.list_messages c10Db "c1" "v" none none none 20
        = .error .indexError
    ∧ NotificationService.list_notifications c10Db "v" none none 20
        = .error .indexError := by
  constructor
  · exact empty_page_raises_index_error.1 c10Db "c1" "v" none none none 20
      { id := "c1", account_id := some "v", name := "room", last_message_at := 1 }
      (by decide) (by decide)
  · exact empty_page_raises_index_error.2 c10Db "v" none none 20 (by decide)

namespace ChatService

theorem chats_find?_eq {l : List ChatRec} (h : (l.map (fun c => c.id)).Nodup)
    {ch : ChatRec} (hm : ch ∈ l) : l.find? (fun c => c.id == ch.id) = some ch := by
  induction l with
  | nil => cases hm
  | cons e rest ih =>
      simp only [List.map_cons, List.nodup_cons] at h
      by_cases he : (e.id == ch.id) = true
      · have hee : e = ch := by
          rcases List.mem_cons.1 hm with h1 | h1
          · exact h1.symm
          · have hidmem : e.id ∈ rest.map (fun c => c.id) := by
              rw [beq_iff_eq.1 he]
              exact List.mem_map_of_mem _ h1
            exact absurd hidmem h.1
        simp only [List.find?, he, hee, beq_self_eq_true]
      · have he' : (e.id == ch.id) = false := by simpa using he
        have hm' : ch ∈ rest := by
          rcases List.mem_cons.1 hm with h1 | h1
          · have : (e.id == ch.id) = true := by rw [h1]; exact beq_self_eq_true _
            exact absurd this (by simpa using he')
          · exact h1
        simp only [List.find?, he']
        exact ih h.2 hm'

theorem find?_map_replace_ne (l : List ChatRec) (ch ch' : ChatRec)
    (hid : ch'.id = ch.id) (x : String) (hx : x ≠ ch.id) :
    (l.map (fun c => if c.id == ch.id then ch' else c)).find? (fun c => c.id == x)
      = l.find? (fun c => c.id == x) := by
  induction l with
  | nil => rfl
  | cons e rest ih =>
      simp only [List.map_cons]
      by_cases he : (e.id == ch.id) = true
      · have hpred : (ch'.id == x) = false := by
          simp only [beq_eq_false_iff_ne, ne_eq, hid]
          exact fun hcx => hx hcx.symm
        have hpred2 : (e.id == x) = false := by
          simp only [beq_eq_false_iff_ne, ne_eq]
          intro hex
          apply hx
          rw [← hex]
          exact beq_iff_eq.1 he
        rw [if_pos he]
        simp only [List.find?, hpred, hpred2]
        exact ih
      · rw [if_neg he]
        by_cases hex : (e.id == x) = true
        · simp only [List.find?, hex]
        · have hex' : (e.id == x) = false := by simpa using hex
          simp only [List.find?, hex']
          exact ih

theorem find?_map_replace_eq {l : List ChatRec} {ch : ChatRec} (ch' : ChatRec)
    (hid : ch'.id = ch.id) (hm : ch ∈ l) :
    (l.map (fun c => if c.id == ch.id then ch' else c)).find? (fun c => c.id == ch.id)
      = some ch' := by
  induction l with
  | nil => cases hm
  | cons e rest ih =>
      simp only [List.map_cons]
      by_cases he : (e.id == ch.id) = true
      · have hpred : (ch'.id == ch.id) = true := by
          rw [hid]; exact beq_self_eq_true _
        rw [if_pos he]
        simp only [List.find?, hpred]
      · have he' : (e.id == ch.id) = false := by simpa using he
        have hm' : ch ∈ rest := by
          rcases List.mem_cons.1 hm with h1 | h1
          · have : (e.id == ch.id) = true := by rw [h1]; exact beq_self_eq_true _
            exact absurd this (by simpa using he')
          · exact h1
        rw [if_neg he]
        simp only [List.find?, he']
        exact ih hm'

theorem get_chat_or_raise_ok {chatId accountId : String} {db : Db} {ch : ChatRec}
    (h : get_chat_or_raise chatId accountId db = .ok ch) :
    ch ∈ db.chats ∧ ch.id = chatId := by
  unfold get_chat_or_raise at h
  cases hf : db.chats.find? (fun c => c.id == chatId
      && db.members.any (fun m => m.chat_id == c.id && m.account_id == accountId)) with
  | none => rw [hf] at h; cases h
  | some c =>
      rw [hf] at h
      cases h
      have hpred := List.find?_some hf
      simp only [Bool.and_eq_true, beq_iff_eq] at hpred
      exact ⟨List.mem_of_find?_eq_some hf, hpred.1⟩

end ChatService

/-- C8.  `chat.last_message_at` is monotonically non-decreasing across the
chat-domain operations: `create_message` (service.py lines 395-396) sets it
to the new message's `created_at` exactly when that timestamp is strictly
newer — i.e. to `max` of old value and new timestamp — leaves every other
chat untouched, and never decreases any chat's value; `update_message` and
`delete_message` never change any chat row at all. -/
theorem last_message_at_monotone :
    (∀ (db : Db) (userId chatId content : String) (replyTo : Option Nat)
        (t mid : Nat) (db' : Db) (msg : MessageRec),
        (db.chats.map (fun c => c.id)).Nodup →
        ChatService.create_message db userId chatId content replyTo t mid
          = .ok (db', msg) →
        ChatService.lastMessageAt db' chatId
            = (ChatService.lastMessageAt db chatId).map (fun v => max v t)
        ∧ (∀ x, x ≠ chatId →
            ChatService.lastMessageAt db' x = ChatService.lastMessageAt db x)
        ∧ (∀ x v w, ChatService.lastMessageAt db x = some v →
            ChatService.lastMessageAt db' x = some w → v ≤ w))
    ∧ (∀ (db : Db) (userId : String) (messageId : Nat) (newContent : String)
        (db' : Db) (msg : MessageRec),
        ChatService.update_message db userId messageId newContent = .ok (db', msg) →
        db'.chats = db.chats)
    ∧ (∀ (db : Db) (userId : String) (messageId : Nat) (db' : Db) (msg : MessageRec),
        ChatService.delete_message db userId messageId = .ok (db', msg) →
        db'.chats = db.chats) := by
  refine ⟨?_, ?_, ?_⟩
  · intro db userId chatId content replyTo t mid db' msg hnd hok
    unfold ChatService.create_message at hok
    split at hok
    · cases hok
    · rename_i chat hg
      obtain ⟨hmem, hid⟩ := ChatService.get_chat_or_raise_ok hg
      injection hok with hp
      have hdb := congrArg Prod.fst hp
      dsimp only at hdb
      have hcid : (if t > chat.last_message_at then
          { chat with last_message_at := t } else chat).id = chat.id := by
        split <;> rfl
      have hlast : (if t > chat.last_message_at then
          { chat with last_message_at := t } else chat).last_message_at
          = max chat.last_message_at t := by
        split
        · rename_i hgt
          show t = max chat.last_message_at t
          omega
        · rename_i hgt
          show chat.last_message_at = max chat.last_message_at t
          omega
      have h1 : ChatService.lastMessageAt db' chatId
          = (ChatService.lastMessageAt db chatId).map (fun v => max v t) := by
        rw [← hdb, ← hid]
        show ((db.chats.map (fun c => if c.id == chat.id then
            (if t > chat.last_message_at then { chat with last_message_at := t }
              else chat) else c)).find? (fun c => c.id == chat.id)).map
            (fun c => c.last_message_at)
          = ((db.chats.find? (fun c => c.id == chat.id)).map
              (fun c => c.last_message_at)).map (fun v => max v t)
        rw [ChatService.find?_map_replace_eq _ hcid hmem,
          ChatService.chats_find?_eq hnd hmem]
        simp [hlast]
      have h2 : ∀ x, x ≠ chatId →
          ChatService.lastMessageAt db' x = ChatService.lastMessageAt db x := by
        intro x hx
        rw [← hdb]
        show ((db.chats.map (fun c => if c.id == chat.id then
            (if t > chat.last_message_at then { chat with last_message_at := t }
              else chat) else c)).find? (fun c => c.id == x)).map
            (fun c => c.last_message_at)
          = ((db.chats.find? (fun c => c.id == x)).map (fun c => c.last_message_at))
        rw [ChatService.find?_map_replace_ne _ _ _ hcid x (by rw [hid]; exact hx)]
      refine ⟨h1, h2, ?_⟩
      intro x v w hv hw
      by_cases hx : x = chatId
      · subst hx
        rw [hv] at h1
        rw [h1] at hw
        rw [Option.map_some'] at hw
        injection hw with hw'
        omega
      · rw [h2 x hx, hv] at hw
        injection hw with hw'
        omega
  · intro db userId messageId newContent db' msg hok
    unfold ChatService.update_message at hok
    split at hok
    · cases hok
    · split at hok
      · cases hok
      · injection hok with hp
        have hdb := congrArg Prod.fst hp
        dsimp only at hdb
        rw [← hdb]
  · intro db userId messageId db' msg hok
    unfold ChatService.delete_message at hok
    split at hok
    · cases hok
    · split at hok
      · cases hok
      · injection hok with hp
        have hdb := congrArg Prod.fst hp
        dsimp only at hdb
        rw [← hdb]

/-- Witness for C8: creating a message at timestamp 9 over `last_message_at
= 5` raises the summary to `max 5 9`, leaves other chats alone, and the
edit/soft-delete runs leave the chat rows untouched. -/
theorem last_message_at_monotone_witness :
    ChatService.lastMessageAt c8CreateDb "c1"
        = (ChatService.lastMessageAt c8Db "c1").map (fun v => max v 9)
    ∧ ChatService.lastMessageAt c8CreateDb "c2" = ChatService.lastMessageAt c8Db "c2"
    ∧ (5 : Nat) ≤ 9
    ∧ c8UpdateDb.chats = c8Db.chats
    ∧ c8DeleteDb.chats = c8Db.chats := by
  have h := last_message_at_monotone
  have h1 := h.1 c8Db "u" "c1" "b" none 9 2 c8CreateDb c8NewMsg (by decide) (by decide)
  exact ⟨h1.1, h1.2.1 "c2" (by decide), h1.2.2 "c1" 5 9 (by decide) (by decide),
    h.2.1 c8Db "u" 1 "edited" c8UpdateDb c8UpdMsg (by decide),
    h.2.2 c8Db "u" 1 c8DeleteDb c8DelMsg (by decide)⟩
